import Mathlib

/-!
# Verification of the flyby33 flyby-prediction pipeline

Shallow embedding of the core of `main.py` / `sql_utils.py`:
trail fusion (`Utils.prepare_flight_list`), the flyby scorer
(`Utils.calculate_flyby_chance`, `Utils.calculate_straight_heading_chance`,
`Utils._process_flyby_data`), the geodesy helpers
(`Utils.calculate_bearing`, `Utils.is_plane_heading_towards_origin`,
`Utils.will_plane_pass_within_radius`, `Utils.get_flyby_info`,
`Utils.bearing_to_compass`, `Utils.calculate_distance`) and the
detail-fetch retry loop (`Utils._fetch_flight_details`,
`Utils._process_flight`).

Python floats are modelled as real numbers; Unix timestamps as integers.
Calls into external libraries (geopy's ellipsoidal `geodesic` distance and
`destination` point) are taken as parameters of the embedding, since their
code is not part of this repository; the `haversine` library call inside
`Utils.calculate_distance` is embedded by its published formula
(mean earth radius 6371.0088 km).  Fallible operations (dict accesses that
can raise, `math.asin`/`math.acos` domain errors, division by zero,
`list[0]` on a possibly-empty list) are modelled with `Option`.
-/

namespace Flyby

/-- A single historical position sample, as built in `Utils._process_flight`
(`{'lat':…, 'lng':…, 'alt':…, 'spd':…, 'ts':…, 'hd':…}`).  The heading is
optional because `Utils.calculate_straight_heading_chance` explicitly
handles trail dicts whose `'hd'` value is `None`; the timestamp is always
present (every producer writes a `'ts'` key). -/
structure TrailPoint where
  lat : ℝ
  lng : ℝ
  alt : ℝ
  spd : ℝ
  hd : Option ℝ
  ts : ℤ

/-- Seen-set deduplication by timestamp, first occurrence wins: the list
comprehension `[p for p in all_trail_points if p.get('ts') not in seen_ts
and not seen_ts.add(p.get('ts'))]` in `Utils.prepare_flight_list`. -/
def dedupTs (seen : List ℤ) : List TrailPoint → List TrailPoint
  | [] => []
  | p :: ps =>
      if p.ts ∈ seen then dedupTs seen ps
      else p :: dedupTs (p.ts :: seen) ps

/-- Descending-timestamp order used by
`sorted(..., key=lambda x: x.get('ts', 0), reverse=True)`. -/
def tsDesc (a b : TrailPoint) : Prop := b.ts ≤ a.ts

instance : DecidableRel tsDesc := fun a b => by
  unfold tsDesc; infer_instance

instance : IsTotal TrailPoint tsDesc :=
  ⟨fun a b => le_total b.ts a.ts⟩

instance : IsTrans TrailPoint tsDesc :=
  ⟨fun _ _ _ h h' => le_trans h' h⟩

/-- The sorted, deduplicated, age-filtered trail list
(`recent_unique_trail_points`) of `Utils.prepare_flight_list`:
concatenate stored trail points and detail-fetch trail points, dedup by
timestamp (first wins), drop samples with `ts < now - 6*60`, sort by
timestamp descending. -/
def fusedSorted (trail_data trail_data_details : List TrailPoint)
    (now : ℤ) : List TrailPoint :=
  let all_trail_points := trail_data ++ trail_data_details
  let unique_trail_points := dedupTs [] all_trail_points
  let trail_age_unix_threshold := now - 6 * 60
  let recent_trail_points :=
    unique_trail_points.filter (fun p => decide (trail_age_unix_threshold ≤ p.ts))
  List.insertionSort tsDesc recent_trail_points

/-- The fused trail window `relevant_trails = recent_unique_trail_points[:6]`
of `Utils.prepare_flight_list`. -/
def fusedWindow (trail_data trail_data_details : List TrailPoint)
    (now : ℤ) : List TrailPoint :=
  (fusedSorted trail_data trail_data_details now).take 6

/-- The `last_known_position = recent_unique_trail_points[0]` access of
`Utils.prepare_flight_list` line 1373, modelled with `Option`: the Python
subscript raises `IndexError` exactly when this is `none`. -/
def lastKnownPosition (trail_data trail_data_details : List TrailPoint)
    (now : ℤ) : Option TrailPoint :=
  (fusedSorted trail_data trail_data_details now).head?

/-! ### Lemmas about deduplication and the fused window -/

theorem dedupTs_ts_not_mem_seen (seen : List ℤ) (l : List TrailPoint) :
    ∀ p ∈ dedupTs seen l, p.ts ∉ seen := by
  induction l generalizing seen with
  | nil => intro p hp; simp [dedupTs] at hp
  | cons q l ih =>
      intro p hp
      by_cases hq : q.ts ∈ seen
      · rw [dedupTs, if_pos hq] at hp
        exact ih seen p hp
      · rw [dedupTs, if_neg hq] at hp
        rcases List.mem_cons.mp hp with rfl | hp'
        · exact hq
        · have := ih (q.ts :: seen) p hp'
          exact fun hmem => this (List.mem_cons_of_mem _ hmem)

theorem dedupTs_pairwise_ne (seen : List ℤ) (l : List TrailPoint) :
    (dedupTs seen l).Pairwise (fun a b => a.ts ≠ b.ts) := by
  induction l generalizing seen with
  | nil => simp [dedupTs]
  | cons q l ih =>
      by_cases hq : q.ts ∈ seen
      · rw [dedupTs, if_pos hq]; exact ih seen
      · rw [dedupTs, if_neg hq]
        refine List.Pairwise.cons ?_ (ih (q.ts :: seen))
        intro p hp hEq
        have := dedupTs_ts_not_mem_seen (q.ts :: seen) l p hp
        exact this (by rw [← hEq]; exact List.mem_cons_self _ _)

theorem fusedSorted_eq (td tdd : List TrailPoint) (now : ℤ) :
    fusedSorted td tdd now =
      List.insertionSort tsDesc
        ((dedupTs [] (td ++ tdd)).filter
          (fun p => decide (now - 6 * 60 ≤ p.ts))) := rfl

theorem fusedSorted_pairwise_ne (td tdd : List TrailPoint) (now : ℤ) :
    (fusedSorted td tdd now).Pairwise (fun a b => a.ts ≠ b.ts) := by
  rw [fusedSorted_eq]
  have hperm := List.perm_insertionSort tsDesc
    ((dedupTs [] (td ++ tdd)).filter (fun p => decide (now - 6 * 60 ≤ p.ts)))
  refine hperm.symm.pairwise ?_ (fun h => Ne.symm h)
  exact (dedupTs_pairwise_ne [] (td ++ tdd)).sublist (List.filter_sublist _)

theorem fusedSorted_sorted (td tdd : List TrailPoint) (now : ℤ) :
    (fusedSorted td tdd now).Pairwise tsDesc := by
  rw [fusedSorted_eq]
  exact List.sorted_insertionSort tsDesc _

theorem fusedSorted_recent (td tdd : List TrailPoint) (now : ℤ) :
    ∀ p ∈ fusedSorted td tdd now, now - 6 * 60 ≤ p.ts := by
  intro p hp
  rw [fusedSorted_eq] at hp
  have hperm := List.perm_insertionSort tsDesc
    ((dedupTs [] (td ++ tdd)).filter (fun p => decide (now - 6 * 60 ≤ p.ts)))
  have hp' := hperm.mem_iff.mp hp
  exact of_decide_eq_true (List.mem_filter.mp hp').2

/-- Claim C1: For every pair of input trail lists and every `now`, the fused
trail window of `Utils.prepare_flight_list` contains no two points with the
same timestamp, has length at most 6, is sorted descending by timestamp,
and contains no sample older than 6 minutes before `now`. -/
theorem fusedWindow_spec (td tdd : List TrailPoint) (now : ℤ) :
    (fusedWindow td tdd now).Pairwise (fun a b => a.ts ≠ b.ts) ∧
    (fusedWindow td tdd now).length ≤ 6 ∧
    (fusedWindow td tdd now).Pairwise tsDesc ∧
    (∀ p ∈ fusedWindow td tdd now, now - 6 * 60 ≤ p.ts) := by
  refine ⟨?_, ?_, ?_, ?_⟩
  · exact (fusedSorted_pairwise_ne td tdd now).sublist (List.take_sublist _ _)
  · rw [fusedWindow, List.length_take]; exact min_le_left _ _
  · exact (fusedSorted_sorted td tdd now).sublist (List.take_sublist _ _)
  · intro p hp
    exact fusedSorted_recent td tdd now p ((List.take_sublist _ _).mem hp)

/-! ### The empty-window case of `Utils.prepare_flight_list` (claim C6)

`prepare_flight_list` line 1373 runs
`last_known_position = recent_unique_trail_points[0]` with no emptiness
check and no surrounding `try`/`except` (neither in the function nor in
its callers in `main.py` / `streamlit_app.py`), so an aircraft whose fused
trail window is empty makes the whole cycle abort with an `IndexError`
instead of being skipped with a log entry. -/

/-- A trail point whose timestamp (600) is older than 6 minutes before
`now = 1000` (threshold 640): the only sample of an aircraft whose last
position report is stale. -/
def stalePoint : TrailPoint :=
  { lat := 59, lng := 18, alt := 1000, spd := 200, hd := some 90, ts := 600 }

/-- Claim C6, failing input: For an aircraft whose only stored sample is
`stalePoint` and which has no detail-fetch samples, at `now = 1000` the
fused trail list of `Utils.prepare_flight_list` is empty, so the
`recent_unique_trail_points[0]` subscript on line 1373 is out of bounds
(`none` in the `Option` model): the code raises `IndexError` rather than
excluding the aircraft and continuing. -/
theorem emptyWindow_subscript_out_of_bounds :
    fusedSorted [stalePoint] [] 1000 = [] ∧
    lastKnownPosition [stalePoint] [] 1000 = none ∧
    fusedWindow [stalePoint] [] 1000 = [] := by
  refine ⟨rfl, rfl, rfl⟩

/-! ### Concurrent fetcher: detail-fetch retry with exponential backoff

`Utils._fetch_flight_details` loops `for attempt in range(1, max_retries+1)`;
a successful fetch returns immediately, a failed attempt either returns
`None` (when `attempt == max_retries`) or sleeps `2 ** (attempt - 1)`
seconds and retries.  The external fetch is modelled as a function from
the attempt number to an optional result; the embedding returns the final
result together with the list of backoff delays actually slept. -/

/-- The detail record `flight_data_detailed` that
`Utils._process_flight` extracts from a successful detail fetch. -/
structure FlightDetails where
  callsign : Option String
  tail_no : Option String
  flight_no : Option String
  aircraft_icao : Option String
  aircraft : Option String
  airline_icao : Option String
  airline : Option String
  origin_airport_iata : Option String
  origin_city : Option String
  destination_airport_iata : Option String
  destination_city : Option String
  destination_airport_coords : Option (ℝ × ℝ)
  trail_data_details : Option (List TrailPoint)

/-- The per-aircraft record built by `Utils._process_flight`.  The basic
(lightweight-poll) dict carries the identity fields, the single current
trail sample and `api_details_fetch = False`; the detail-only fields
(aircraft/airline names, cities, destination coordinates, detail trail
list) are absent from the basic dict, modelled as `none`. -/
structure FlightData where
  flight_id : String
  callsign : Option String
  tail_no : Option String
  flight_no : Option String
  aircraft_icao : Option String
  airline_icao : Option String
  origin_airport_iata : Option String
  destination_airport_iata : Option String
  trail_data : TrailPoint
  api_details_fetch : Bool
  aircraft : Option String
  airline : Option String
  origin_city : Option String
  destination_city : Option String
  destination_airport_coords : Option (ℝ × ℝ)
  trail_data_details : Option (List TrailPoint)

/-- Models `flight_data.update({k: v for k, v in flight_data_detailed.items()
if k not in flight_data or flight_data[k] is None})` followed by
`flight_data['api_details_fetch'] = True`: a detail value replaces a basic
value only where the basic value is `None`; detail-only keys are always
added. -/
def mergeFlightDetails (basic : FlightData) (d : FlightDetails) : FlightData where
  flight_id := basic.flight_id
  callsign := basic.callsign.or d.callsign
  tail_no := basic.tail_no.or d.tail_no
  flight_no := basic.flight_no.or d.flight_no
  aircraft_icao := basic.aircraft_icao.or d.aircraft_icao
  airline_icao := basic.airline_icao.or d.airline_icao
  origin_airport_iata := basic.origin_airport_iata.or d.origin_airport_iata
  destination_airport_iata :=
    basic.destination_airport_iata.or d.destination_airport_iata
  trail_data := basic.trail_data
  api_details_fetch := true
  aircraft := d.aircraft
  airline := d.airline
  origin_city := d.origin_city
  destination_city := d.destination_city
  destination_airport_coords := d.destination_airport_coords
  trail_data_details := d.trail_data_details

/-- The `if flight_details:` merge step of `Utils._process_flight`: a
terminally failed fetch (`None`) leaves the basic flight data unchanged. -/
def processFlightResult (basic : FlightData) (details : Option FlightDetails) :
    FlightData :=
  match details with
  | none => basic
  | some d => mergeFlightDetails basic d

/-- The retry loop of `Utils._fetch_flight_details`, with `fuel` the number
of attempts still available (including the current one, numbered
`attempt`).  Returns the final result and the backoff delays slept, in
order. -/
def fetchRetryGo (outcome : ℕ → Option α) : ℕ → ℕ → Option α × List ℕ
  | _, 0 => (none, [])
  | attempt, fuel + 1 =>
      match outcome attempt with
      | some v => (some v, [])
      | none =>
          if fuel = 0 then (none, [])
          else
            let rest := fetchRetryGo outcome (attempt + 1) fuel
            (rest.1, 2 ^ (attempt - 1) :: rest.2)

/-- Embeds `Utils._fetch_flight_details(flight, fr_api, max_retries=5)`:
attempts are numbered 1 to `max_retries`. -/
def fetchFlightDetails (outcome : ℕ → Option α) (max_retries : ℕ) :
    Option α × List ℕ :=
  fetchRetryGo outcome 1 max_retries

theorem fetchRetry_allFail (outcome : ℕ → Option α)
    (h : ∀ k, 1 ≤ k → k ≤ 5 → outcome k = none) :
    fetchFlightDetails outcome 5 = (none, [1, 2, 4, 8]) := by
  have h1 := h 1 (by norm_num) (by norm_num)
  have h2 := h 2 (by norm_num) (by norm_num)
  have h3 := h 3 (by norm_num) (by norm_num)
  have h4 := h 4 (by norm_num) (by norm_num)
  have h5 := h 5 (by norm_num) (by norm_num)
  simp [fetchFlightDetails, fetchRetryGo, h1, h2, h3, h4, h5]

theorem fetchRetry_succeedAt (outcome : ℕ → Option α) (k : ℕ) (v : α)
    (hk1 : 1 ≤ k) (hk5 : k ≤ 5)
    (hfail : ∀ j, 1 ≤ j → j < k → outcome j = none)
    (hsucc : outcome k = some v) :
    fetchFlightDetails outcome 5 =
      (some v, (List.range (k - 1)).map (fun i => 2 ^ i)) := by
  interval_cases k
  · simp [fetchFlightDetails, fetchRetryGo, hsucc]
  · have h1 := hfail 1 (by norm_num) (by norm_num)
    simp [fetchFlightDetails, fetchRetryGo, h1, hsucc, List.range_succ]
  · have h1 := hfail 1 (by norm_num) (by norm_num)
    have h2 := hfail 2 (by norm_num) (by norm_num)
    simp [fetchFlightDetails, fetchRetryGo, h1, h2, hsucc, List.range_succ]
  · have h1 := hfail 1 (by norm_num) (by norm_num)
    have h2 := hfail 2 (by norm_num) (by norm_num)
    have h3 := hfail 3 (by norm_num) (by norm_num)
    simp [fetchFlightDetails, fetchRetryGo, h1, h2, h3, hsucc, List.range_succ]
  · have h1 := hfail 1 (by norm_num) (by norm_num)
    have h2 := hfail 2 (by norm_num) (by norm_num)
    have h3 := hfail 3 (by norm_num) (by norm_num)
    have h4 := hfail 4 (by norm_num) (by norm_num)
    simp [fetchFlightDetails, fetchRetryGo, h1, h2, h3, h4, hsucc,
      List.range_succ]

/-- Claim C8: The detail fetch retries up to the fixed bound of 5 attempts
with the backoff delay doubling per attempt (`2 ** (attempt - 1)`).  A
fetch failing on all 5 attempts resolves as `none` after delays
`[1, 2, 4, 8]`, and the aircraft keeps its basic (lightweight-poll) data;
a fetch succeeding on attempt `k` resolves as success after exactly the
backoff delays of the `k - 1` failed attempts. -/
theorem fetch_retry_spec (outcome : ℕ → Option FlightDetails)
    (basic : FlightData) :
    ((∀ k, 1 ≤ k → k ≤ 5 → outcome k = none) →
      fetchFlightDetails outcome 5 = (none, [1, 2, 4, 8]) ∧
      processFlightResult basic none = basic) ∧
    (∀ k v, 1 ≤ k → k ≤ 5 → (∀ j, 1 ≤ j → j < k → outcome j = none) →
      outcome k = some v →
      fetchFlightDetails outcome 5 =
        (some v, (List.range (k - 1)).map (fun i => 2 ^ i))) := by
  constructor
  · intro h
    exact ⟨fetchRetry_allFail outcome h, rfl⟩
  · intro k v hk1 hk5 hfail hsucc
    exact fetchRetry_succeedAt outcome k v hk1 hk5 hfail hsucc

/-- A concrete basic flight record for witnesses. -/
def basicFlight : FlightData where
  flight_id := "39b8c501"
  callsign := some "SAS123"
  tail_no := none
  flight_no := none
  aircraft_icao := some "A320"
  airline_icao := none
  origin_airport_iata := none
  destination_airport_iata := none
  trail_data := { lat := 59, lng := 18, alt := 35000, spd := 450, hd := some 90, ts := 900 }
  api_details_fetch := false
  aircraft := none
  airline := none
  origin_city := none
  destination_city := none
  destination_airport_coords := none
  trail_data_details := none

/-- A concrete detail record for witnesses. -/
def sampleDetails : FlightDetails where
  callsign := some "SAS123"
  tail_no := some "SE-ABC"
  flight_no := none
  aircraft_icao := none
  aircraft := some "Airbus A320"
  airline_icao := none
  airline := some "SAS"
  origin_airport_iata := none
  origin_city := none
  destination_airport_iata := none
  destination_city := none
  destination_airport_coords := none
  trail_data_details := none

/-- An outcome that fails on every attempt. -/
def outcomeAllFail : ℕ → Option FlightDetails := fun _ => none

/-- An outcome that fails on attempts 1 and 2 and succeeds on attempt 3
(end-to-end scenario C). -/
def outcomeThird : ℕ → Option FlightDetails :=
  fun n => if n = 3 then some sampleDetails else none

/-- Witness for `fetch_retry_spec`: five failures give `none` after delays
`[1, 2, 4, 8]` keeping the basic data; two failures then a success give
the detail record after delays `[1, 2]`. -/
theorem fetch_retry_spec_witness :
    (fetchFlightDetails outcomeAllFail 5 = (none, [1, 2, 4, 8]) ∧
      processFlightResult basicFlight none = basicFlight) ∧
    fetchFlightDetails outcomeThird 5 = (some sampleDetails, [1, 2]) := by
  constructor
  · exact (fetch_retry_spec outcomeAllFail basicFlight).1
      (fun k _ _ => rfl)
  · have h := (fetch_retry_spec outcomeThird basicFlight).2 3 sampleDetails
      (by norm_num) (by norm_num)
      (by intro j hj1 hj3; interval_cases j <;> rfl)
      (by rfl)
    simpa [List.range_succ] using h

/-! ### Geodesy (`Utils.calculate_distance`, `Utils.calculate_bearing`,
`Utils.is_plane_heading_towards_origin`,
`Utils.will_plane_pass_within_radius`, `Utils.bearing_to_compass`)

Python floats are modelled as real numbers.  `geopy`'s ellipsoidal
`geodesic(...).kilometers` distance and `geodesic(...).destination` point
are external library calls and enter the embedding as parameters
(`gdist`, `gdest`); the `haversine` library call is embedded by its
published formula with mean earth radius 6371.0088 km. -/

noncomputable section

open Classical

/-- Python `math.radians`. -/
def radians (x : ℝ) : ℝ := x * (Real.pi / 180)

/-- Python `math.degrees`. -/
def degrees (x : ℝ) : ℝ := x * (180 / Real.pi)

/-- Python's float `%` operator (`a - b * floor(a / b)`, the sign follows
the divisor; only used here with divisor 360). -/
def pymod (a b : ℝ) : ℝ := a - b * ⌊a / b⌋

/-- Python's `int()` float-to-int conversion: truncation toward zero. -/
def pytrunc (x : ℝ) : ℤ := if 0 ≤ x then ⌊x⌋ else -⌊-x⌋

/-- Python's `round()` to nearest integer.  (Python uses round-half-to-even
at exact half-integers; no value in this development sits on a half-integer,
so round-half-up is used.) -/
def pyround (x : ℝ) : ℤ := round x

/-- Python `math.atan2(y, x)`: the angle of the point `(x, y)`;
`atan2(0, 0) = 0`. -/
def atan2 (y x : ℝ) : ℝ :=
  if 0 < x then Real.arctan (y / x)
  else if x < 0 ∧ 0 ≤ y then Real.arctan (y / x) + Real.pi
  else if x < 0 ∧ y < 0 then Real.arctan (y / x) - Real.pi
  else if x = 0 ∧ 0 < y then Real.pi / 2
  else if x = 0 ∧ y < 0 then -(Real.pi / 2)
  else 0

/-- The `haversine` library's great-circle distance in km (mean earth
radius 6371.0088 km), as called by `Utils.calculate_distance`. -/
def haversineKm (a b : ℝ × ℝ) : ℝ :=
  let lat1 := radians a.1
  let lat2 := radians b.1
  let dlat := lat2 - lat1
  let dlng := radians (b.2 - a.2)
  let d := Real.sin (dlat / 2) ^ 2 +
    Real.cos lat1 * Real.cos lat2 * Real.sin (dlng / 2) ^ 2
  2 * 6371.0088 * Real.arcsin (Real.sqrt d)

/-- Embeds `Utils.calculate_distance`: haversine distance rounded to the nearest
integer kilometre. -/
def calculate_distance (a b : ℝ × ℝ) : ℤ := pyround (haversineKm a b)

/-- Embeds `Utils.calculate_bearing`: initial bearing from `a` to `b`,
normalized to `[0, 360)` by `(initial_bearing + 360) % 360`. -/
def calculate_bearing (a b : ℝ × ℝ) : ℝ :=
  let lat1 := radians a.1
  let lat2 := radians b.1
  let diffLong := radians (b.2 - a.2)
  let x := Real.sin diffLong * Real.cos lat2
  let y := Real.cos lat1 * Real.sin lat2 -
    Real.sin lat1 * Real.cos lat2 * Real.cos diffLong
  let initial_bearing := degrees (atan2 x y)
  pymod (initial_bearing + 360) 360

/-- Embeds `Utils.is_plane_heading_towards_origin`: the wrap-around-corrected
difference between the heading and the bearing to the origin is within
`max_bearing_diff`. -/
def is_plane_heading_towards_origin (plane_loc : ℝ × ℝ) (heading : ℝ)
    (origin_loc : ℝ × ℝ) (max_bearing_diff : ℝ) : Prop :=
  let bearing_to_origin := calculate_bearing plane_loc origin_loc
  let bearing_difference := |bearing_to_origin - heading|
  min bearing_difference (360 - bearing_difference) ≤ max_bearing_diff

/-- Embeds `Utils.will_plane_pass_within_radius`: the absolute cross-track
distance of the origin from the great-circle path along the heading is at
most `radius_km`.  `gdist` is geopy's ellipsoidal `geodesic(...).kilometers`
(external library).  The `math.asin` argument `sin δ13 · sin Δθ` always
lies in `[-1, 1]`, so the unclamped call is modelled total. -/
def will_plane_pass_within_radius (gdist : ℝ × ℝ → ℝ × ℝ → ℝ)
    (plane_loc : ℝ × ℝ) (heading : ℝ) (origin_loc : ℝ × ℝ)
    (radius_km : ℝ) : Prop :=
  let delta13 := gdist plane_loc origin_loc / 6371.0
  let theta13 := radians (calculate_bearing plane_loc origin_loc)
  let theta12 := radians heading
  let delta_theta := theta13 - theta12
  let delta_xt := Real.arcsin (Real.sin delta13 * Real.sin delta_theta)
  |delta_xt * 6371.0| ≤ radius_km

/-- Embeds `Utils.bearing_to_compass`: 8-point compass rose,
`int((bearing + 22.5) / 45) % 8`. -/
def bearing_to_compass (bearing : ℝ) : String :=
  let dirs := ["N", "NE", "E", "SE", "S", "SW", "W", "NW"]
  let ix := pytrunc ((bearing + 22.5) / 45) % 8
  dirs.getD ix.toNat "N"

theorem atan2_zero_zero : atan2 0 0 = 0 := by
  simp [atan2]

/-- The bearing computation applied to coincident points yields 0
(`math.atan2(0.0, 0.0) == 0.0` in Python). -/
theorem calculate_bearing_self (a : ℝ × ℝ) : calculate_bearing a a = 0 := by
  have hy : Real.cos (radians a.1) * Real.sin (radians a.1) -
      Real.sin (radians a.1) * Real.cos (radians a.1) * Real.cos (radians (a.2 - a.2)) = 0 := by
    simp [radians]
    ring
  simp only [calculate_bearing, sub_self]
  rw [show radians 0 = 0 by simp [radians]]
  simp only [Real.sin_zero, Real.cos_zero, zero_mul, mul_one]
  rw [show Real.cos (radians a.1) * Real.sin (radians a.1) -
      Real.sin (radians a.1) * Real.cos (radians a.1) = 0 by ring]
  rw [atan2_zero_zero]
  simp [degrees, pymod]

theorem haversineKm_self (a : ℝ × ℝ) : haversineKm a a = 0 := by
  simp [haversineKm, radians]

theorem haversineKm_nonneg (a b : ℝ × ℝ) : 0 ≤ haversineKm a b := by
  show 0 ≤ 2 * 6371.0088 * Real.arcsin (Real.sqrt _)
  exact mul_nonneg (by norm_num) (Real.arcsin_nonneg.mpr (Real.sqrt_nonneg _))

theorem calculate_distance_self (a : ℝ × ℝ) : calculate_distance a a = 0 := by
  simp [calculate_distance, pyround, haversineKm_self]

theorem calculate_distance_nonneg (a b : ℝ × ℝ) :
    0 ≤ calculate_distance a b := by
  unfold calculate_distance pyround
  rw [round_eq]
  have h := haversineKm_nonneg a b
  have : (0:ℝ) ≤ haversineKm a b + 1 / 2 := by linarith
  exact Int.le_floor.mpr (by exact_mod_cast this)

/-! ### `Utils.get_flyby_info`

`math.asin` / `math.acos` raise `ValueError` outside `[-1, 1]` and `/`
raises `ZeroDivisionError` at 0; these fallible operations are modelled
with `Option`, so `get_flyby_info` can only return a string (`some`) or
raise (`none`).  The source clamps both inverse-trig arguments to
`[-1, 1]` before the calls; the `geodesic(...).destination` library call
(`gdest`, taking start point, distance in km and bearing) sits inside a
`try`/`except` that falls back to a plain distance string. -/

/-- Python `math.asin`, `none` on a domain error. -/
def asinChecked (x : ℝ) : Option ℝ :=
  if -1 ≤ x ∧ x ≤ 1 then some (Real.arcsin x) else none

/-- Python `math.acos`, `none` on a domain error. -/
def acosChecked (x : ℝ) : Option ℝ :=
  if -1 ≤ x ∧ x ≤ 1 then some (Real.arccos x) else none

/-- Float division, `none` on division by zero. -/
def divChecked (a b : ℝ) : Option ℝ :=
  if b = 0 then none else some (a / b)

/-- Embeds `Utils.get_flyby_info`.  Returns `some` string normally and `none`
exactly where the Python body would raise. -/
def get_flyby_info (gdest : ℝ × ℝ → ℝ → ℝ → Option (ℝ × ℝ))
    (plane_loc : ℝ × ℝ) (heading : ℝ) (origin_loc : ℝ × ℝ) : Option String :=
  let d13 := calculate_distance plane_loc origin_loc
  if d13 = 0 then some "0 km N/A°"
  else
    let bearing_to_origin := calculate_bearing plane_loc origin_loc
    let theta13 := radians bearing_to_origin
    let theta12 := radians heading
    let delta13 := (d13 : ℝ) / 6371.0
    let cta0 := Real.sin delta13 * Real.sin (theta13 - theta12)
    let cross_track_angle := max (-1) (min 1 cta0)
    (asinChecked cross_track_angle).bind fun asin_cta =>
      let d_xt := asin_cta * 6371.0
      (divChecked (Real.cos delta13) (Real.cos cross_track_angle)).bind fun q =>
        let cos_delta_at := max (-1) (min 1 q)
        (acosChecked cos_delta_at).bind fun delta_at =>
          let d_at := delta_at * 6371.0
          match gdest plane_loc d_at heading with
          | none => some (toString (pyround |d_xt|) ++ " km N/A°")
          | some flyby_point =>
              let bearing_origin_to_flyby :=
                calculate_bearing origin_loc flyby_point
              some (toString (pyround |d_xt|) ++ " km " ++
                bearing_to_compass bearing_origin_to_flyby ++ " (" ++
                toString (pytrunc bearing_origin_to_flyby) ++ "°)")

theorem clamp_mem (x : ℝ) :
    -1 ≤ max (-1) (min 1 x) ∧ max (-1) (min 1 x) ≤ 1 :=
  ⟨le_max_left _ _, max_le (by norm_num) (min_le_left _ _)⟩

theorem cos_clamp_ne_zero (x : ℝ) : Real.cos (max (-1) (min 1 x)) ≠ 0 := by
  have h := clamp_mem x
  have hπ : (3:ℝ) < Real.pi := Real.pi_gt_three
  refine ne_of_gt (Real.cos_pos_of_mem_Ioo ?_)
  constructor
  · linarith [h.1]
  · linarith [h.2]

/-- Claim C7: For every plane location, heading and origin location (and any
behaviour of the external destination-point call), `get_flyby_info` never
hits an inverse-trig domain error or a division by zero: both clamped
arguments lie in `[-1, 1]` and the cosine divisor is nonzero, so the
function always returns a string. -/
theorem get_flyby_info_total (gdest : ℝ × ℝ → ℝ → ℝ → Option (ℝ × ℝ))
    (plane_loc : ℝ × ℝ) (heading : ℝ) (origin_loc : ℝ × ℝ) :
    (get_flyby_info gdest plane_loc heading origin_loc).isSome = true := by
  unfold get_flyby_info
  by_cases h0 : calculate_distance plane_loc origin_loc = 0
  · simp [h0]
  · simp only [h0, if_false]
    rw [show asinChecked (max (-1) (min 1 _)) = some (Real.arcsin _) from
      if_pos (clamp_mem _), Option.some_bind]
    rw [show divChecked (Real.cos _) (Real.cos (max (-1) (min 1 _))) =
      some (Real.cos _ / Real.cos (max (-1) (min 1 _))) from
      if_neg (by push_neg; exact cos_clamp_ne_zero _), Option.some_bind]
    rw [show acosChecked (max (-1) (min 1 _)) = some (Real.arccos _) from
      if_pos (clamp_mem _), Option.some_bind]
    cases gdest plane_loc _ heading <;> simp

/-! ### Flyby scorer (`Utils.calculate_straight_heading_chance`,
`Utils.calculate_flyby_chance`) -/

/-- The `(change, weight)` pairs collected by the loop of
`Utils.calculate_straight_heading_chance`: for each consecutive index pair
whose headings are both present, the wrap-around-corrected heading change
and the exponential weight `exp(1 * (total_trails - i))`. -/
def headingChangeWeights (trails : List TrailPoint) : List (ℝ × ℝ) :=
  (List.range (trails.length - 1)).filterMap fun i =>
    match trails[i]?, trails[i + 1]? with
    | some p1, some p2 =>
        match p1.hd, p2.hd with
        | some hd1, some hd2 =>
            let diff0 := |hd1 - hd2|
            let diff := min diff0 (360 - diff0)
            some (diff, Real.exp (1 * ((trails.length : ℝ) - (i : ℝ))))
        | _, _ => none
    | _, _ => none

/-- Embeds `Utils.calculate_straight_heading_chance`: exponentially weighted
average heading change mapped to a `[0, 1]` straightness chance; `0` when
no usable consecutive pair exists. -/
def calculate_straight_heading_chance (trails : List TrailPoint)
    (max_average_change : ℝ) : ℝ :=
  let cw := headingChangeWeights trails
  if cw = [] then 0
  else
    let weighted_sum_exp := (cw.map (fun p => p.1 * p.2)).sum
    let total_weight_exp := (cw.map Prod.snd).sum
    let weighted_avg_change_exp :=
      if total_weight_exp ≠ 0 then weighted_sum_exp / total_weight_exp else 0
    max 0 (min 1 (1 - weighted_avg_change_exp / max_average_change))

/-- Result of `Utils.calculate_flyby_chance`: the chance plus the three
factor slots of the debug breakdown; `none` models the `'-'` placeholder. -/
structure ChanceResult where
  chance : ℝ
  proximity_factor : Option ℝ
  straight_heading_chance : Option ℝ
  speed_factor : Option ℝ

/-- Embeds `Utils.calculate_flyby_chance`.  `none` models an uncaught exception:
`ZeroDivisionError` when `origin_radius_km == flyby_radius_km`, or
`TypeError` when `speed_kmh` is `None` (both only reachable in the outer
branch).  `trails and len(trails) > 1` is equivalent to `1 < len(trails)`. -/
def calculate_flyby_chance (trails : List TrailPoint)
    (distance_to_origin origin_radius_km flyby_radius_km : ℝ)
    (speed_kmh : Option ℝ) (max_average_change : ℝ) : Option ChanceResult :=
  if distance_to_origin ≤ flyby_radius_km then
    some ⟨1, none, none, none⟩
  else if origin_radius_km - flyby_radius_km = 0 then
    none
  else
    match speed_kmh with
    | none => none
    | some speed =>
        let p0 := 1 - ((distance_to_origin - flyby_radius_km) /
          (origin_radius_km - flyby_radius_km))
        let proximity_factor := max 0.1 (min 1 p0)
        let default_min_heading_chance := (0.3 : ℝ)
        let shc0 :=
          if 1 < trails.length then
            calculate_straight_heading_chance trails max_average_change
          else default_min_heading_chance
        let shc := max default_min_heading_chance (min 1 shc0)
        let s0 := (speed - 200) / (700 - 200)
        let speed_factor := max 0.1 (min 1 s0)
        let chance := proximity_factor * 0.6 + shc * 0.25 + speed_factor * 0.15
        some ⟨max 0 (min 1 chance), some proximity_factor, some shc,
          some speed_factor⟩

/-- Claim C2: When the distance to the origin is at most the inner flyby
radius, `calculate_flyby_chance` returns chance exactly 1 for any trails,
speed and radii, with all three sub-factors left as the `'-'` placeholder
(`none`). -/
theorem flyby_chance_inner_radius (trails : List TrailPoint)
    (d origin_radius flyby_radius : ℝ) (speed : Option ℝ) (m : ℝ)
    (h : d ≤ flyby_radius) :
    calculate_flyby_chance trails d origin_radius flyby_radius speed m =
      some ⟨1, none, none, none⟩ := by
  unfold calculate_flyby_chance
  rw [if_pos h]

/-- Witness for `flyby_chance_inner_radius` at a concrete input. -/
theorem flyby_chance_inner_radius_witness :
    (5:ℝ) ≤ 10 ∧
    calculate_flyby_chance [] 5 200 10 (some 450) 10 =
      some ⟨1, none, none, none⟩ :=
  ⟨by norm_num, flyby_chance_inner_radius [] 5 200 10 (some 450) 10 (by norm_num)⟩

/-- Claim C4: End-to-end scenario B: 150 km from the origin, 200 km monitor
radius, 10 km inner radius, speed 450 km/h and a single trail point give
chance `0.6·(1 − (150−10)/(200−10)) + 0.25·0.3 + 0.15·0.5 ≈ 0.308`:
proximity is the unclamped `1 − (150−10)/(200−10)`, heading stability
falls back to the 0.3 floor (fewer than 2 trail points), the speed factor
is `(450−200)/(700−200) = 0.5`, and the 0.6/0.25/0.15 weights are applied
exactly. -/
theorem flyby_chance_scenarioB (p : TrailPoint) :
    calculate_flyby_chance [p] 150 200 10 (some 450) 10 =
      some ⟨0.6 * (1 - (150 - 10) / (200 - 10)) + 0.25 * 0.3 + 0.15 * 0.5,
        some (1 - (150 - 10) / (200 - 10)), some 0.3, some 0.5⟩ := by
  unfold calculate_flyby_chance
  rw [if_neg (by norm_num), if_neg (by norm_num)]
  simp only [List.length_singleton]
  norm_num

/-- Claim C10: Whenever the composite flyby-chance is computed (distance
strictly beyond the inner radius, monitor radius strictly larger than the
inner radius, numeric speed), the result is at least
`0.6·0.1 + 0.25·0.3 + 0.15·0.1 = 0.15` — the three factors are floored at
0.1, 0.3 and 0.1 — and in particular never 0. -/
theorem flyby_chance_floor (trails : List TrailPoint)
    (d origin_radius flyby_radius speed m : ℝ)
    (h1 : flyby_radius < d) (h2 : flyby_radius < origin_radius) :
    ∃ r, calculate_flyby_chance trails d origin_radius flyby_radius
        (some speed) m = some r ∧ 0.15 ≤ r.chance ∧ r.chance ≠ 0 := by
  have hne : ¬ d ≤ flyby_radius := not_le.mpr h1
  have hz : origin_radius - flyby_radius ≠ 0 :=
    sub_ne_zero_of_ne (ne_of_gt h2)
  have heq : calculate_flyby_chance trails d origin_radius flyby_radius
      (some speed) m =
      some ⟨max 0 (min 1
          (max 0.1 (min 1 (1 - ((d - flyby_radius) /
            (origin_radius - flyby_radius)))) * 0.6 +
          max 0.3 (min 1 (if 1 < trails.length then
            calculate_straight_heading_chance trails m else 0.3)) * 0.25 +
          max 0.1 (min 1 ((speed - 200) / (700 - 200))) * 0.15)),
        some (max 0.1 (min 1 (1 - ((d - flyby_radius) /
          (origin_radius - flyby_radius))))),
        some (max 0.3 (min 1 (if 1 < trails.length then
          calculate_straight_heading_chance trails m else 0.3))),
        some (max 0.1 (min 1 ((speed - 200) / (700 - 200))))⟩ := by
    unfold calculate_flyby_chance
    rw [if_neg hne, if_neg hz]
  have hp : (0.1:ℝ) ≤ max 0.1 (min 1 (1 - ((d - flyby_radius) /
      (origin_radius - flyby_radius)))) := le_max_left _ _
  have hh : (0.3:ℝ) ≤ max 0.3 (min 1 (if 1 < trails.length then
      calculate_straight_heading_chance trails m else 0.3)) := le_max_left _ _
  have hs : (0.1:ℝ) ≤ max 0.1 (min 1 ((speed - 200) / (700 - 200))) :=
    le_max_left _ _
  have hbound : (0.15:ℝ) ≤ max 0 (min 1
      (max 0.1 (min 1 (1 - ((d - flyby_radius) /
        (origin_radius - flyby_radius)))) * 0.6 +
      max 0.3 (min 1 (if 1 < trails.length then
        calculate_straight_heading_chance trails m else 0.3)) * 0.25 +
      max 0.1 (min 1 ((speed - 200) / (700 - 200))) * 0.15)) := by
    refine le_max_of_le_right (le_min (by norm_num) ?_)
    nlinarith
  exact ⟨_, heq, hbound,
    ne_of_gt (lt_of_lt_of_le (by norm_num) hbound)⟩

/-- Witness for `flyby_chance_floor` at a concrete input. -/
theorem flyby_chance_floor_witness :
    (10:ℝ) < 150 ∧ (10:ℝ) < 200 ∧
    ∃ r, calculate_flyby_chance [] 150 200 10 (some 450) 10 = some r ∧
      0.15 ≤ r.chance ∧ r.chance ≠ 0 :=
  ⟨by norm_num, by norm_num,
    flyby_chance_floor [] 150 200 10 450 10 (by norm_num) (by norm_num)⟩

/-! ### `Utils._process_flyby_data` -/

/-- The fields of the prepared flight dict that `_process_flyby_data`
reads.  `distance_from_origin` is the integer kilometre distance computed
by `prepare_flight_list` via `calculate_distance`, as a real. -/
structure FlightInput where
  location_coords : Option (ℝ × ℝ)
  heading : Option ℝ
  speed : Option ℝ
  distance_from_origin : ℝ
  destination_airport_coords : Option (ℝ × ℝ)
  latest_trail_data : List TrailPoint
  timestamp : Option ℝ

/-- The tuple returned by `_process_flyby_data`; `none` models the `'-'`
sentinel of the prediction fields.  The ETA is the timestamp plus
`distance / speed` hours, in seconds (the source's timezone/microsecond
normalization is display-level). -/
structure FlybyOut where
  flyby_info : Option String
  flyby_chance : Option ℝ
  flyby_eta : Option ℝ
  is_closer_to_airport_than_origin : Prop
  is_heading : Prop
  will_pass : Prop

/-- The airport-proximity test of `_process_flyby_data`: with known
destination-airport coordinates, whether the plane is closer to that
airport than to the origin; `False` when the coordinates are missing
(also the value kept if the distance computation raises). -/
def is_closer_to_airport (plane_loc : ℝ × ℝ) (distance_to_origin : ℝ)
    (dest : Option (ℝ × ℝ)) : Prop :=
  match dest with
  | some ap => ((calculate_distance plane_loc ap : ℝ) < distance_to_origin)
  | none => False

/-- The gating of `_process_flyby_data` fails when the plane is not
heading toward the origin, or its path does not pass within the inner
flyby radius, or it is closer to its destination airport than to the
origin while the airport-proximity check is active. -/
def gating_fails (gdist : ℝ × ℝ → ℝ × ℝ → ℝ) (plane_loc : ℝ × ℝ)
    (heading : ℝ) (origin_loc : ℝ × ℝ) (distance_to_origin : ℝ)
    (dest : Option (ℝ × ℝ)) (flyby_radius_km : ℝ) (ignore : Bool) : Prop :=
  ¬ is_plane_heading_towards_origin plane_loc heading origin_loc 90 ∨
  ¬ will_plane_pass_within_radius gdist plane_loc heading origin_loc
      flyby_radius_km ∨
  (is_closer_to_airport plane_loc distance_to_origin dest ∧ ignore = false)

/-- Embeds `Utils._process_flyby_data`.  A `none` from the chance computation (an
exception inside the `try`) resets the prediction fields to the sentinel
while keeping the already-assigned booleans, matching the `except`
branch. -/
def process_flyby_data (gdist : ℝ × ℝ → ℝ × ℝ → ℝ)
    (gdest : ℝ × ℝ → ℝ → ℝ → Option (ℝ × ℝ)) (fd : FlightInput)
    (origin_loc : ℝ × ℝ) (origin_radius_km flyby_radius_km : ℝ)
    (ignore_airport_proximity : Bool) : FlybyOut :=
  match fd.location_coords, fd.heading with
  | some plane_loc, some plane_heading =>
      let ih := is_plane_heading_towards_origin plane_loc plane_heading
        origin_loc 90
      let wp := will_plane_pass_within_radius gdist plane_loc plane_heading
        origin_loc flyby_radius_km
      if ih ∧ wp then
        let ic := is_closer_to_airport plane_loc fd.distance_from_origin
          fd.destination_airport_coords
        if ¬ ic ∨ ignore_airport_proximity = true then
          match calculate_flyby_chance fd.latest_trail_data
              fd.distance_from_origin origin_radius_km flyby_radius_km
              fd.speed 10 with
          | none => ⟨none, none, none, ic, ih, wp⟩
          | some r =>
              match get_flyby_info gdest plane_loc plane_heading origin_loc with
              | none => ⟨none, none, none, ic, ih, wp⟩
              | some info =>
                  let eta :=
                    match fd.speed, fd.timestamp with
                    | some s, some t =>
                        if 0 < s then
                          some (t + fd.distance_from_origin / s * 3600)
                        else none
                    | _, _ => none
                  ⟨some info, some r.chance, eta, ic, ih, wp⟩
        else ⟨none, none, none, ic, ih, wp⟩
      else ⟨none, none, none, False, ih, wp⟩
  | _, _ => ⟨none, none, none, False, False, False⟩

theorem chance_eq_inner (trails : List TrailPoint)
    (d origin_radius flyby_radius : ℝ) (speed : Option ℝ) (m : ℝ)
    (h : d ≤ flyby_radius) :
    calculate_flyby_chance trails d origin_radius flyby_radius speed m =
      some ⟨1, none, none, none⟩ := by
  unfold calculate_flyby_chance
  rw [if_pos h]

theorem chance_eq_none_of_zero_span (trails : List TrailPoint)
    (d origin_radius flyby_radius : ℝ) (speed : Option ℝ) (m : ℝ)
    (h1 : ¬ d ≤ flyby_radius) (h2 : origin_radius - flyby_radius = 0) :
    calculate_flyby_chance trails d origin_radius flyby_radius speed m =
      none := by
  unfold calculate_flyby_chance
  rw [if_neg h1, if_pos h2]

theorem chance_eq_none_of_no_speed (trails : List TrailPoint)
    (d origin_radius flyby_radius : ℝ) (m : ℝ)
    (h1 : ¬ d ≤ flyby_radius) (h2 : ¬ origin_radius - flyby_radius = 0) :
    calculate_flyby_chance trails d origin_radius flyby_radius none m =
      none := by
  unfold calculate_flyby_chance
  rw [if_neg h1, if_neg h2]

theorem chance_eq_outer (trails : List TrailPoint)
    (d origin_radius flyby_radius s m : ℝ)
    (h1 : ¬ d ≤ flyby_radius) (h2 : ¬ origin_radius - flyby_radius = 0) :
    calculate_flyby_chance trails d origin_radius flyby_radius (some s) m =
      some ⟨max 0 (min 1
          (max 0.1 (min 1 (1 - ((d - flyby_radius) /
            (origin_radius - flyby_radius)))) * 0.6 +
          max 0.3 (min 1 (if 1 < trails.length then
            calculate_straight_heading_chance trails m else 0.3)) * 0.25 +
          max 0.1 (min 1 ((s - 200) / (700 - 200))) * 0.15)),
        some (max 0.1 (min 1 (1 - ((d - flyby_radius) /
          (origin_radius - flyby_radius))))),
        some (max 0.3 (min 1 (if 1 < trails.length then
          calculate_straight_heading_chance trails m else 0.3))),
        some (max 0.1 (min 1 ((s - 200) / (700 - 200))))⟩ := by
  unfold calculate_flyby_chance
  rw [if_neg h1, if_neg h2]

theorem chance_mem_unit (trails : List TrailPoint)
    (d origin_radius flyby_radius : ℝ) (speed : Option ℝ) (m : ℝ)
    (r : ChanceResult)
    (h : calculate_flyby_chance trails d origin_radius flyby_radius speed m =
      some r) :
    0 ≤ r.chance ∧ r.chance ≤ 1 := by
  by_cases h1 : d ≤ flyby_radius
  · rw [chance_eq_inner trails d origin_radius flyby_radius speed m h1] at h
    obtain rfl := Option.some.inj h
    exact ⟨by norm_num, by norm_num⟩
  · by_cases h2 : origin_radius - flyby_radius = 0
    · rw [chance_eq_none_of_zero_span trails d origin_radius flyby_radius
        speed m h1 h2] at h
      exact absurd h (by simp)
    · cases speed with
      | none =>
          rw [chance_eq_none_of_no_speed trails d origin_radius flyby_radius
            m h1 h2] at h
          exact absurd h (by simp)
      | some s =>
          rw [chance_eq_outer trails d origin_radius flyby_radius s m h1 h2]
            at h
          obtain rfl := Option.some.inj h
          constructor
          · exact le_max_left _ _
          · exact max_le (by norm_num) (min_le_left _ _)

/-- Claim C3: Whenever `_process_flyby_data` computes a flyby-chance, its
value lies in `[0, 1]`; and whenever gating fails (not heading toward the
origin, or the path does not pass within the inner flyby radius, or
closer to the destination airport while the airport-proximity check is
active), the prediction fields hold the `'-'` sentinel (`none`). -/
theorem process_flyby_spec (gdist : ℝ × ℝ → ℝ × ℝ → ℝ)
    (gdest : ℝ × ℝ → ℝ → ℝ → Option (ℝ × ℝ)) (fd : FlightInput)
    (origin_loc : ℝ × ℝ) (origin_radius_km flyby_radius_km : ℝ)
    (ign : Bool) :
    (∀ c, (process_flyby_data gdist gdest fd origin_loc origin_radius_km
        flyby_radius_km ign).flyby_chance = some c → 0 ≤ c ∧ c ≤ 1) ∧
    (∀ pl hd, fd.location_coords = some pl → fd.heading = some hd →
      gating_fails gdist pl hd origin_loc fd.distance_from_origin
        fd.destination_airport_coords flyby_radius_km ign →
      (process_flyby_data gdist gdest fd origin_loc origin_radius_km
        flyby_radius_km ign).flyby_chance = none ∧
      (process_flyby_data gdist gdest fd origin_loc origin_radius_km
        flyby_radius_km ign).flyby_info = none ∧
      (process_flyby_data gdist gdest fd origin_loc origin_radius_km
        flyby_radius_km ign).flyby_eta = none) := by
  obtain ⟨loc, hdg, spd, dist, dest, trails, ts⟩ := fd
  constructor
  · intro c hc
    cases loc with
    | none => simp [process_flyby_data] at hc
    | some pl =>
        cases hdg with
        | none => simp [process_flyby_data] at hc
        | some hd =>
            simp only [process_flyby_data] at hc
            by_cases hG : is_plane_heading_towards_origin pl hd origin_loc 90 ∧
                will_plane_pass_within_radius gdist pl hd origin_loc
                  flyby_radius_km
            · rw [if_pos hG] at hc
              by_cases hA : ¬ is_closer_to_airport pl dist dest ∨ ign = true
              · rw [if_pos hA] at hc
                cases hcc : calculate_flyby_chance trails dist
                    origin_radius_km flyby_radius_km spd 10 with
                | none => rw [hcc] at hc; simp at hc
                | some r =>
                    rw [hcc] at hc
                    cases hfi : get_flyby_info gdest pl hd origin_loc with
                    | none => rw [hfi] at hc; simp at hc
                    | some info =>
                        rw [hfi] at hc
                        simp only [FlybyOut.flyby_chance,
                          Option.some.injEq] at hc
                        subst hc
                        exact chance_mem_unit trails dist origin_radius_km
                          flyby_radius_km spd 10 r hcc
              · rw [if_neg hA] at hc; simp at hc
            · rw [if_neg hG] at hc; simp at hc
  · intro pl hd hpl hhd hgf
    obtain rfl : loc = some pl := hpl
    obtain rfl : hdg = some hd := hhd
    simp only at hgf
    simp only [process_flyby_data]
    rcases hgf with hnih | hnwp | ⟨hic, hign⟩
    · rw [if_neg (fun hG => hnih hG.1)]
      exact ⟨rfl, rfl, rfl⟩
    · rw [if_neg (fun hG => hnwp hG.2)]
      exact ⟨rfl, rfl, rfl⟩
    · by_cases hG : is_plane_heading_towards_origin pl hd origin_loc 90 ∧
          will_plane_pass_within_radius gdist pl hd origin_loc flyby_radius_km
      · rw [if_pos hG, if_neg ?_]
        · exact ⟨rfl, rfl, rfl⟩
        · intro h
          rcases h with h | h
          · exact h hic
          · rw [hign] at h; exact Bool.false_ne_true h
      · rw [if_neg hG]
        exact ⟨rfl, rfl, rfl⟩

/-! ### Concrete scenario at the origin's exact coordinates -/

/-- External geodesic distance behaving as geopy does on coincident
points (distance 0); used to instantiate witnesses. -/
def gdistZero : ℝ × ℝ → ℝ × ℝ → ℝ := fun _ _ => 0

/-- External destination call that raises (the `except` fallback path). -/
def gdestNone : ℝ × ℝ → ℝ → ℝ → Option (ℝ × ℝ) := fun _ _ _ => none

/-- A concrete origin location. -/
def originPoint : ℝ × ℝ := (59.33, 18.07)

/-- A prepared flight sitting exactly at `originPoint` with heading 180°,
its `distance_from_origin` computed by `calculate_distance` as
`prepare_flight_list` does. -/
def fdHeading180 : FlightInput :=
  ⟨some originPoint, some 180, some 450,
    (calculate_distance originPoint originPoint : ℝ), none, [], none⟩

/-- For coincident points the bearing computation returns 0, so a heading
of 180° fails the ≤ 90° heading gate. -/
theorem not_heading_at_origin_180 :
    ¬ is_plane_heading_towards_origin originPoint 180 originPoint 90 := by
  simp only [is_plane_heading_towards_origin, calculate_bearing_self]
  norm_num [zero_sub, abs_neg, abs_of_nonneg]

/-- Claim C5, counterexample: An aircraft at the origin's exact coordinates
with heading 180° does *not* get flyby-chance 1.0: the bearing computation
returns 0 for coincident points, the heading gate `|0 − 180| ≤ 90` fails,
and all prediction fields stay at the sentinel. -/
theorem at_origin_heading180_sentinel :
    (process_flyby_data gdistZero gdestNone fdHeading180 originPoint 200 10
      false).flyby_chance = none ∧
    (process_flyby_data gdistZero gdestNone fdHeading180 originPoint 200 10
      false).flyby_chance ≠ some 1 := by
  have hsent : (process_flyby_data gdistZero gdestNone fdHeading180
      originPoint 200 10 false).flyby_chance = none := by
    simp only [fdHeading180, process_flyby_data]
    rw [if_neg (fun hG => not_heading_at_origin_180 hG.1)]
  exact ⟨hsent, by rw [hsent]; simp⟩

theorem will_pass_of_gdist_zero (gdist : ℝ × ℝ → ℝ × ℝ → ℝ) (o : ℝ × ℝ)
    (hdg r : ℝ) (h : gdist o o = 0) (hr : 0 ≤ r) :
    will_plane_pass_within_radius gdist o hdg o r := by
  simp only [will_plane_pass_within_radius, h]
  norm_num
  exact hr

theorem get_flyby_info_self (gdest : ℝ × ℝ → ℝ → ℝ → Option (ℝ × ℝ))
    (o : ℝ × ℝ) (hdg : ℝ) :
    get_flyby_info gdest o hdg o = some "0 km N/A°" := by
  unfold get_flyby_info
  rw [calculate_distance_self]
  simp

/-- Claim C5, amended: For an aircraft located at the origin's exact
coordinates whose heading is within 90° (wrap-around) of the 0° bearing
that the bearing computation reports for coincident points, the flyby
processing produces flyby-chance exactly 1 and the degenerate
`"0 km N/A°"` flyby-info sentinel; headings outside that band fail the
heading gate (see the counterexample). -/
theorem process_flyby_at_origin (gdist : ℝ × ℝ → ℝ × ℝ → ℝ)
    (gdest : ℝ × ℝ → ℝ → ℝ → Option (ℝ × ℝ)) (o : ℝ × ℝ) (hdg : ℝ)
    (spd : Option ℝ) (dest : Option (ℝ × ℝ)) (trails : List TrailPoint)
    (t : Option ℝ) (origin_radius_km : ℝ) (ign : Bool)
    (hh : min |0 - hdg| (360 - |0 - hdg|) ≤ 90)
    (hgd : gdist o o = 0) :
    (process_flyby_data gdist gdest
      ⟨some o, some hdg, spd, (calculate_distance o o : ℝ), dest, trails, t⟩
      o origin_radius_km 10 ign).flyby_chance = some 1 ∧
    (process_flyby_data gdist gdest
      ⟨some o, some hdg, spd, (calculate_distance o o : ℝ), dest, trails, t⟩
      o origin_radius_km 10 ign).flyby_info = some "0 km N/A°" := by
  have hih : is_plane_heading_towards_origin o hdg o 90 := by
    simp only [is_plane_heading_towards_origin, calculate_bearing_self]
    exact hh
  have hwp := will_pass_of_gdist_zero gdist o hdg 10 hgd (by norm_num)
  have hic : ¬ is_closer_to_airport o ((calculate_distance o o : ℝ)) dest := by
    cases dest with
    | none => simp [is_closer_to_airport]
    | some ap =>
        simp only [is_closer_to_airport, calculate_distance_self,
          Int.cast_zero, not_lt]
        exact_mod_cast calculate_distance_nonneg o ap
  simp only [process_flyby_data]
  rw [if_pos ⟨hih, hwp⟩, if_pos (Or.inl hic)]
  rw [chance_eq_inner trails _ origin_radius_km 10 spd 10
    (by rw [calculate_distance_self]; norm_num)]
  rw [get_flyby_info_self gdest o hdg]
  exact ⟨rfl, rfl⟩

/-- Witness for `process_flyby_at_origin`: at `originPoint` with heading
45°, chance is 1 and the info string is the degenerate sentinel. -/
theorem process_flyby_at_origin_witness :
    min |(0:ℝ) - 45| (360 - |(0:ℝ) - 45|) ≤ 90 ∧
    gdistZero originPoint originPoint = 0 ∧
    (process_flyby_data gdistZero gdestNone
      ⟨some originPoint, some 45, some 450,
        (calculate_distance originPoint originPoint : ℝ), none, [], none⟩
      originPoint 200 10 false).flyby_chance = some 1 ∧
    (process_flyby_data gdistZero gdestNone
      ⟨some originPoint, some 45, some 450,
        (calculate_distance originPoint originPoint : ℝ), none, [], none⟩
      originPoint 200 10 false).flyby_info = some "0 km N/A°" := by
  have h1 : min |(0:ℝ) - 45| (360 - |(0:ℝ) - 45|) ≤ 90 := by
    norm_num [zero_sub, abs_neg, abs_of_nonneg]
  exact ⟨h1, rfl,
    process_flyby_at_origin gdistZero gdestNone originPoint 45 (some 450)
      none [] none 200 false h1 rfl⟩

/-- Witness for `process_flyby_spec`: for the flight at the origin with
heading 180° the gating fails and all prediction fields are sentinels. -/
theorem process_flyby_spec_witness :
    gating_fails gdistZero originPoint 180 originPoint
      ((calculate_distance originPoint originPoint : ℝ)) none 10 false ∧
    ((process_flyby_data gdistZero gdestNone fdHeading180 originPoint 200 10
        false).flyby_chance = none ∧
      (process_flyby_data gdistZero gdestNone fdHeading180 originPoint 200 10
        false).flyby_info = none ∧
      (process_flyby_data gdistZero gdestNone fdHeading180 originPoint 200 10
        false).flyby_eta = none) := by
  have hgf : gating_fails gdistZero originPoint 180 originPoint
      ((calculate_distance originPoint originPoint : ℝ)) none 10 false :=
    Or.inl not_heading_at_origin_180
  exact ⟨hgf, (process_flyby_spec gdistZero gdestNone fdHeading180
    originPoint 200 10 false).2 originPoint 180 rfl rfl hgf⟩

end

end Flyby
